import Mathlib

/-!
Shallow embedding of the dynamic-config fetch/retry core of the analytics
package (`src/packages/analytics/src/get-config.ts`), the identity
initialization (`initializeGAId`), the event-dispatch helpers
(`src/packages/analytics/src/functions.ts`) and the lite Firestore
`CollectionReference.doc` method.

Time is modelled with `Nat` millisecond timestamps.  Asynchronous execution
is single-threaded and cooperative (as in the JS event loop), so the retry
loop is embedded as a pure recursive function fed with an explicit
environment: the list of fetch outcomes (each with the duration the network
round trip takes) and the time at which the single watchdog abort fires.
-/

namespace GetConfig

/-- JS truthiness of an optional string field: `undefined` and the empty
string are falsy (`!app.options.apiKey`). -/
def strTruthy : Option String → Bool
  | none => false
  | some s => !(s == "")

/-- `app.options` — only the fields read by this module. -/
structure AppOptions where
  apiKey : Option String
  appId : Option String
  deriving Repr, DecidableEq

/-- A Firebase app as seen by `get-config.ts`. -/
structure FirebaseApp where
  options : AppOptions
  deriving Repr, DecidableEq

/-- `ThrottleMetadata` from get-config.ts. -/
structure ThrottleMetadata where
  backoffCount : Nat
  throttleEndTimeMillis : Nat
  deriving Repr, DecidableEq

/-- `FETCH_TIMEOUT_MILLIS = 60 * 1000`. -/
def FETCH_TIMEOUT_MILLIS : Nat := 60 * 1000

/-- The `appThrottleMetadata` process-wide map, keyed by appId. -/
def ThrottleStore := List (String × ThrottleMetadata)

/-- Map lookup (`appThrottleMetadata[appId]`, `undefined` when absent). -/
def storeLookup (s : ThrottleStore) (k : String) : Option ThrottleMetadata :=
  (List.find? (fun p => p.1 == k) s).map (·.2)

/-- `delete appThrottleMetadata[appId]`. -/
def storeErase (s : ThrottleStore) (k : String) : ThrottleStore :=
  List.filter (fun p => !(p.1 == k)) s

/-- `appThrottleMetadata[appId] = v`. -/
def storeInsert (s : ThrottleStore) (k : String) (v : ThrottleMetadata) : ThrottleStore :=
  (k, v) :: storeErase s k

/-- An error thrown by a `fetch` call, as inspected by `isRetriableError`:
whether it is a `FirebaseError` instance, and its `httpStatus` field
(`none` models an absent field, for which `Number(e['httpStatus'])` is
`NaN` and matches no status code). -/
structure FetchError where
  isFirebaseError : Bool
  httpStatus : Option Nat
  deriving Repr, DecidableEq

/-- `isRetriableError` from get-config.ts: a `FirebaseError` whose
`httpStatus` is 429, 500, 503 or 504. -/
def isRetriableError (e : FetchError) : Bool :=
  if !e.isFirebaseError then
    false
  else
    e.httpStatus == some 429 ||
    e.httpStatus == some 500 ||
    e.httpStatus == some 503 ||
    e.httpStatus == some 504

/-- The dynamic config payload: at minimum a measurement id and the owning
app id (the latter may be absent in a mocked response body). -/
structure DynamicConfig where
  measurementId : String
  appId : Option String
  deriving Repr, DecidableEq

/-- Outcome of one network fetch attempt, supplied by the environment. -/
inductive FetchResult where
  | success (cfg : DynamicConfig)
  | failure (e : FetchError)
  deriving Repr, DecidableEq

/-- Result of `setAbortableTimeout`: the promise either resolves (at the
given absolute time) or rejects with the `FETCH_THROTTLE` error carrying
the originally requested `throttleEndTimeMillis`. -/
inductive DelayOutcome where
  | resolved (at_ : Nat)
  | rejectedThrottle (throttleEndTimeMillis : Nat)
  deriving Repr, DecidableEq

/-- `setAbortableTimeout` from get-config.ts.  `now` is the time of the
call, `abortTime` the absolute time at which `signal.abort()` fires
(`none` when it never does).  The timer is armed for
`backoffMillis = max(throttleEndTimeMillis - now, 0)` (Nat subtraction
performs exactly this normalization of negatives to zero), so the promise
resolves at `now + backoffMillis = max now throttleEndTimeMillis`.  The
abort listener rejects only if the abort fires while the timer is pending:
at or after registration (`now ≤ a` — a listener added after `abort()`
already ran is never invoked) and strictly before the timer fires
(`a < resolveTime`; afterwards, the rejection of an already-resolved
promise has no effect). -/
def setAbortableTimeout (now throttleEndTimeMillis : Nat)
    (abortTime : Option Nat) : DelayOutcome :=
  let backoffMillis := throttleEndTimeMillis - now
  let resolveTime := now + backoffMillis
  match abortTime with
  | none => .resolved resolveTime
  | some a =>
    if now ≤ a ∧ a < resolveTime then
      .rejectedThrottle throttleEndTimeMillis
    else
      .resolved resolveTime

/-- Terminal result of the retry loop. -/
inductive RetryResult where
  /-- `fetchDynamicConfig` succeeded; throttle state cleared. -/
  | ok (cfg : DynamicConfig)
  /-- a non-retriable error was re-thrown; throttle state cleared. -/
  | err (e : FetchError)
  /-- the watchdog aborted the pending delay: `FETCH_THROTTLE` error
      carrying the scheduled throttle end time. -/
  | throttled (throttleEndTimeMillis : Nat)
  /-- `throw new Error('no api key')`. -/
  | configError
  /-- the supplied outcome list ran out while the loop was still going. -/
  | outOfOutcomes
  deriving Repr, DecidableEq

/-- Observable run of the retry loop. -/
structure RetryRun where
  result : RetryResult
  /-- final contents of `appThrottleMetadata`. -/
  store : ThrottleStore
  /-- the `ThrottleMetadata` persisted after each retriable failure, in
      order. -/
  trace : List ThrottleMetadata
  /-- number of `fetchDynamicConfig` attempts actually dispatched. -/
  attempts : Nat

/-- `attemptFetchDynamicConfigWithRetry` from get-config.ts.  `backoff`
models `calculateBackoffMillis` (imported from `./exponential_backoff`,
not under src/); `outcomes` supplies, for each dispatched fetch, the
duration of the round trip and its result. -/
def attemptFetchDynamicConfigWithRetry (backoff : Nat → Nat)
    (app : FirebaseApp) (abortTime : Option Nat) (now : Nat)
    (meta : ThrottleMetadata) (store : ThrottleStore)
    (outcomes : List (Nat × FetchResult)) : RetryRun :=
    if !(strTruthy app.options.apiKey) || !(strTruthy app.options.appId) then
      ⟨.configError, store, [], 0⟩
    else
      let appId := app.options.appId.getD ""
      match setAbortableTimeout now meta.throttleEndTimeMillis abortTime with
      | .rejectedThrottle t => ⟨.throttled t, store, [], 0⟩
      | .resolved resolveTime =>
        match outcomes with
        | [] => ⟨.outOfOutcomes, store, [], 0⟩
        | (fetchDur, res) :: rest =>
          let now2 := resolveTime + fetchDur
          match res with
          | .success cfg => ⟨.ok cfg, storeErase store appId, [], 1⟩
          | .failure e =>
            if !isRetriableError e then
              ⟨.err e, storeErase store appId, [], 1⟩
            else
              let meta2 : ThrottleMetadata :=
                { throttleEndTimeMillis := now2 + backoff meta.backoffCount,
                  backoffCount := meta.backoffCount + 1 }
              let store2 := storeInsert store appId meta2
              let r := attemptFetchDynamicConfigWithRetry backoff app abortTime
                now2 meta2 store2 rest
              ⟨r.result, r.store, meta2 :: r.trace, r.attempts + 1⟩
termination_by structural outcomes

/-- `fetchDynamicConfigWithRetry` from get-config.ts: reads the stored
throttle metadata (or the fresh default `{backoffCount = 0,
throttleEndTimeMillis = now}`), arms the single watchdog timer at
`now + FETCH_TIMEOUT_MILLIS`, and enters the retry loop. -/
def fetchDynamicConfigWithRetry (backoff : Nat → Nat) (app : FirebaseApp)
    (now : Nat) (store : ThrottleStore)
    (outcomes : List (Nat × FetchResult)) : RetryRun :=
  if !(strTruthy app.options.apiKey) || !(strTruthy app.options.appId) then
    ⟨.configError, store, [], 0⟩
  else
    let appId := app.options.appId.getD ""
    let meta := (storeLookup store appId).getD
      { backoffCount := 0, throttleEndTimeMillis := now }
    attemptFetchDynamicConfigWithRetry backoff app
      (some (now + FETCH_TIMEOUT_MILLIS)) now meta store outcomes

/-- Modelled from the spec: `calculateBackoffMillis` lives in
`./exponential_backoff`, which is not under src/.  The spec keeps it
abstract — "an exponential function of the attempt count with jitter,
bounded by an implementation-chosen ceiling"; any non-negative such
function satisfies the contract.  Theorems therefore quantify over an
arbitrary `backoff : Nat → Nat`; this concrete jittered exponential is
used to instantiate witnesses. -/
def calculateBackoffMillis (jitterMillis : Nat) (backoffCount : Nat) : Nat :=
  min (4 * 60 * 1000) (1000 * 2 ^ backoffCount + jitterMillis)

/-- An outbound HTTP request: `fetch(appUrl, request)` with
`request = \x7b method, headers \x7d`. -/
structure HttpRequest where
  method : String
  url : String
  headers : List (String × String)
  deriving Repr, DecidableEq

/-- `DYNAMIC_CONFIG_URL` from get-config.ts. -/
def DYNAMIC_CONFIG_URL : String :=
  "https://firebase.googleapis.com/v1alpha/projects/-/apps/\x7bapp-id\x7d/webConfig"

/-- `getHeaders` from get-config.ts. -/
def getHeaders (apiKey : String) : List (String × String) :=
  [("Accept", "application/json"), ("x-goog-api-key", apiKey)]

/-- `throw new Error('no api key')`. -/
inductive ConfigFetchError where
  | noApiKey
  deriving Repr, DecidableEq

/-- `fetchDynamicConfig` from get-config.ts.  The network is modelled by
`net`, mapping the issued request to the parsed JSON response body
(`response.json()`).  The first component of the result records, in
order, every outbound request the call issued (none when the options
check throws). -/
def fetchDynamicConfig (app : FirebaseApp)
    (net : HttpRequest → DynamicConfig) :
    List HttpRequest × Except ConfigFetchError DynamicConfig :=
  if !(strTruthy app.options.apiKey) || !(strTruthy app.options.appId) then
    ([], .error .noApiKey)
  else
    let apiKey := app.options.apiKey.getD ""
    let appId := app.options.appId.getD ""
    let request : HttpRequest :=
      { method := "GET",
        url := DYNAMIC_CONFIG_URL.replace "\x7bapp-id\x7d" appId,
        headers := getHeaders apiKey }
    ([request], .ok (net request))

/-- A primitive value in a gtag parameter object. -/
inductive GVal where
  | str (s : String)
  | bool (b : Bool)
  | nat (n : Nat)
  deriving Repr, DecidableEq

/-- A positional argument of a gtag call. -/
inductive GtagArg where
  | str (s : String)
  /-- `new Date()`, as the creation timestamp. -/
  | date (nowMillis : Nat)
  | obj (fields : List (String × GVal))
  deriving Repr, DecidableEq

/-- One invocation of the (core or wrapped) gtag dispatch function. -/
structure GtagCall where
  command : String
  args : List GtagArg
  deriving Repr, DecidableEq

/-- Modelled from the spec: `./constants` is not under src/.  The command
tags are named by the spec ("js", "config", "event", "set") and the
`firebase_id` / `origin` parameter keys appear literally in the spec's
end-to-end scenario. -/
def GtagCommand.CONFIG : String := "config"

/-- Modelled from the spec: the "event" command tag (see
`GtagCommand.CONFIG`). -/
def GtagCommand.EVENT : String := "event"

/-- Modelled from the spec: the "set" command tag (see
`GtagCommand.CONFIG`). -/
def GtagCommand.SET : String := "set"

/-- Modelled from the spec: the "js" command tag (see
`GtagCommand.CONFIG`). -/
def GtagCommand.JS : String := "js"

/-- Modelled from the spec: `GA_FID_KEY` from `./constants`, the
`firebase_id` key of the identity-setting config call. -/
def GA_FID_KEY : String := "firebase_id"

/-- Modelled from the spec: `ORIGIN_KEY` from `./constants`, the `origin`
key of the identity-setting config call. -/
def ORIGIN_KEY : String := "origin"

/-- Observable outcome of `initializeGAId`: the `gtagCore` invocations in
order, the updated `measurementIdToAppId` map, and the returned
measurement id. -/
structure InitResult where
  gtagCalls : List GtagCall
  measurementIdToAppId : List (String × Option String)
  returnedMeasurementId : String
  deriving Repr, DecidableEq

/-- `initializeGAId` from initialize-ids.ts.  `fid` models the value of
`installations.getId()`, `nowDate` the `new Date()` timestamp.  The
push onto `dynamicConfigPromisesList` is promise-identity bookkeeping
with no further observable effect here and is omitted; the
`measurementIdToAppId` update performed by the fetch's `.then` callback
is recorded in the result. -/
def initializeGAId (app : FirebaseApp)
    (measurementIdToAppId : List (String × Option String))
    (net : HttpRequest → DynamicConfig) (fid : String) (nowDate : Nat) :
    Except ConfigFetchError InitResult :=
  match (fetchDynamicConfig app net).2 with
  | .error e => .error e
  | .ok dynamicConfig =>
    .ok
      { gtagCalls :=
          [ ⟨GtagCommand.JS, [.date nowDate]⟩,
            ⟨GtagCommand.CONFIG,
              [.str dynamicConfig.measurementId,
               .obj [(GA_FID_KEY, .str fid),
                     (ORIGIN_KEY, .str "firebase"),
                     ("update", .bool true)]]⟩ ],
        measurementIdToAppId :=
          (dynamicConfig.measurementId, dynamicConfig.appId)
            :: measurementIdToAppId,
        returnedMeasurementId := dynamicConfig.measurementId }

/-- `AnalyticsCallOptions` — only the `global` field is read. -/
structure AnalyticsCallOptions where
  global : Bool
  deriving Repr, DecidableEq

/-- The eventual state of the awaited `dynamicConfigPromise`. -/
inductive PromiseOutcome (α : Type) where
  | resolved (a : α)
  | rejected
  deriving Repr, DecidableEq

/-- What a call to `logEvent` does. -/
inductive LogEventEffect where
  /-- the gtag function is invoked synchronously, without awaiting the
      dynamic-config promise. -/
  | callNow (c : GtagCall)
  /-- the gtag function is invoked from the promise's `.then` callback,
      after it resolves. -/
  | callAfterResolve (c : GtagCall)
  /-- the promise rejected: `logger.error` is called, nothing is thrown. -/
  | errorLogged
  deriving Repr, DecidableEq

/-- `logEvent` from functions.ts.  `dynamicConfigOutcome` models how the
`dynamicConfigPromise` argument eventually settles.  The object spread
`\x7b ...eventParams, send_to \x7d` is modelled by appending the
`send_to` entry. -/
def logEvent (dynamicConfigOutcome : PromiseOutcome DynamicConfig)
    (eventName : String) (eventParams : Option (List (String × GVal)))
    (options : Option AnalyticsCallOptions) : LogEventEffect :=
  if (options.map (·.global)).getD false then
    .callNow ⟨GtagCommand.EVENT, [.str eventName, .obj (eventParams.getD [])]⟩
  else
    match dynamicConfigOutcome with
    | .resolved cfg =>
      let params := (eventParams.getD []) ++ [("send_to", GVal.str cfg.measurementId)]
      .callAfterResolve ⟨GtagCommand.EVENT, [.str eventName, .obj params]⟩
    | .rejected => .errorLogged

end GetConfig

namespace FirestoreLite

/-- Firestore error codes — only the one this module raises. -/
inductive Code where
  | INVALID_ARGUMENT
  deriving Repr, DecidableEq

/-- `FirestoreError` from util/error. -/
structure FirestoreError where
  code : Code
  message : String
  deriving Repr, DecidableEq

/-- A resource path is its list of segments. -/
def ResourcePath := List String

/-- Modelled from the spec: `ResourcePath.fromString` lives in the
excluded firestore core (`src/model/path`), not under src/; it parses a
slash-separated path into its non-empty segments. -/
def ResourcePath.fromString (path : String) : ResourcePath :=
  (path.splitOn "/").filter (fun s => !(s == ""))

/-- `this._path.child(path)`. -/
def ResourcePath.child (p q : ResourcePath) : ResourcePath :=
  List.append p q

/-- `DocumentKey` wraps the document's resource path (the core's parity
assertion lives in the excluded companion package). -/
structure DocumentKey where
  path : ResourcePath

/-- A reference to a document: its key. -/
structure DocumentReference where
  _key : DocumentKey

/-- A reference to a collection: its resource path. -/
structure CollectionReference where
  _path : ResourcePath

/-- `CollectionReference.doc` from the lite API.  `autoId` models the
value `AutoId.newId()` would generate (the generator lives in the
excluded firestore core); `pathString` is the optional argument,
`none` for a call with no argument. -/
def CollectionReference.doc (c : CollectionReference) (autoId : String)
    (pathString : Option String) : Except FirestoreError DocumentReference :=
  if pathString == some "" then
    .error ⟨.INVALID_ARGUMENT, "Document path must be a non-empty string"⟩
  else
    let chosen : String :=
      match pathString with
      | some s => if s == "" then autoId else s
      | none => autoId
    let path := ResourcePath.fromString chosen
    .ok ⟨⟨ResourcePath.child c._path path⟩⟩

end FirestoreLite

namespace GetConfig

/-- One fetch outcome that is a retriable failure. -/
def retriableOutcome : Nat × FetchResult → Bool
  | (_, .failure e) => isRetriableError e
  | (_, .success _) => false

/-- Concrete app used to instantiate witnesses (the spec's sample
credentials). -/
def sampleApp : FirebaseApp :=
  ⟨⟨some "AAbbCCdd12345", some "abcdefgh12345:23405"⟩⟩

/-- A retriable HTTP 503 failure. -/
def err503 : FetchError := ⟨true, some 503⟩

/-- A non-retriable HTTP 400 failure. -/
def err400 : FetchError := ⟨true, some 400⟩

/-- Three consecutive retriable failures, for witnesses. -/
def sampleRetriableOutcomes : List (Nat × FetchResult) :=
  [(5, .failure err503), (3, .failure ⟨true, some 429⟩),
   (0, .failure ⟨true, some 500⟩)]

lemma setAbortableTimeout_none (now e : Nat) :
    setAbortableTimeout now e none = .resolved (now + (e - now)) := rfl

lemma attempt_nil (backoff : Nat → Nat) (app : FirebaseApp)
    (hak : strTruthy app.options.apiKey = true)
    (hai : strTruthy app.options.appId = true)
    (now : Nat) (meta : ThrottleMetadata) (store : ThrottleStore) :
    attemptFetchDynamicConfigWithRetry backoff app none now meta store []
      = ⟨.outOfOutcomes, store, [], 0⟩ := by
  unfold attemptFetchDynamicConfigWithRetry
  simp [hak, hai, setAbortableTimeout]

lemma attempt_retriable_step (backoff : Nat → Nat) (app : FirebaseApp)
    (hak : strTruthy app.options.apiKey = true)
    (hai : strTruthy app.options.appId = true)
    (abortTime : Option Nat) (now : Nat) (meta : ThrottleMetadata)
    (store : ThrottleStore) (dur : Nat) (e : FetchError)
    (rest : List (Nat × FetchResult))
    (hab : setAbortableTimeout now meta.throttleEndTimeMillis abortTime
      = .resolved (now + (meta.throttleEndTimeMillis - now)))
    (hre : isRetriableError e = true) :
    attemptFetchDynamicConfigWithRetry backoff app abortTime now meta store
        ((dur, .failure e) :: rest) =
      (let meta2 : ThrottleMetadata :=
        ⟨meta.backoffCount + 1, now + (meta.throttleEndTimeMillis - now) + dur
          + backoff meta.backoffCount⟩
      let r := attemptFetchDynamicConfigWithRetry backoff app abortTime
        (now + (meta.throttleEndTimeMillis - now) + dur) meta2
        (storeInsert store (app.options.appId.getD "") meta2) rest
      ⟨r.result, r.store, meta2 :: r.trace, r.attempts + 1⟩) := by
  conv_lhs => unfold attemptFetchDynamicConfigWithRetry
  simp [hak, hai, hab, hre]

lemma attempt_success_step (backoff : Nat → Nat) (app : FirebaseApp)
    (hak : strTruthy app.options.apiKey = true)
    (hai : strTruthy app.options.appId = true)
    (abortTime : Option Nat) (now : Nat) (meta : ThrottleMetadata)
    (store : ThrottleStore) (dur : Nat) (cfg : DynamicConfig)
    (rest : List (Nat × FetchResult))
    (hab : setAbortableTimeout now meta.throttleEndTimeMillis abortTime
      = .resolved (now + (meta.throttleEndTimeMillis - now))) :
    attemptFetchDynamicConfigWithRetry backoff app abortTime now meta store
        ((dur, .success cfg) :: rest) =
      ⟨.ok cfg, storeErase store (app.options.appId.getD ""), [], 1⟩ := by
  conv_lhs => unfold attemptFetchDynamicConfigWithRetry
  simp [hak, hai, hab]

lemma attempt_nonretriable_step (backoff : Nat → Nat) (app : FirebaseApp)
    (hak : strTruthy app.options.apiKey = true)
    (hai : strTruthy app.options.appId = true)
    (abortTime : Option Nat) (now : Nat) (meta : ThrottleMetadata)
    (store : ThrottleStore) (dur : Nat) (e : FetchError)
    (rest : List (Nat × FetchResult))
    (hab : setAbortableTimeout now meta.throttleEndTimeMillis abortTime
      = .resolved (now + (meta.throttleEndTimeMillis - now)))
    (hne : isRetriableError e = false) :
    attemptFetchDynamicConfigWithRetry backoff app abortTime now meta store
        ((dur, .failure e) :: rest) =
      ⟨.err e, storeErase store (app.options.appId.getD ""), [], 1⟩ := by
  conv_lhs => unfold attemptFetchDynamicConfigWithRetry
  simp [hak, hai, hab, hne]

lemma storeLookup_storeErase (s : ThrottleStore) (k : String) :
    storeLookup (storeErase s k) k = none := by
  have h : List.find? (fun p => p.1 == k)
      (List.filter (fun p => !(p.1 == k)) s) = none := by
    rw [List.find?_eq_none]
    intro p hp
    simp only [List.mem_filter, Bool.not_eq_true'] at hp
    simp [hp.2]
  simp [storeLookup, storeErase, h]

/-- C1: across a run of consecutive retriable failures, `backoffCount`
increments by exactly 1 at each failure and the persisted throttle end
times are monotonically non-decreasing. -/
theorem retry_backoff_increments_and_throttle_monotone
    (backoff : Nat → Nat) (app : FirebaseApp)
    (hak : strTruthy app.options.apiKey = true)
    (hai : strTruthy app.options.appId = true)
    (outcomes : List (Nat × FetchResult))
    (hr : ∀ p ∈ outcomes, retriableOutcome p = true)
    (now : Nat) (meta : ThrottleMetadata) (store : ThrottleStore)
    (r : RetryRun)
    (hrun : r = attemptFetchDynamicConfigWithRetry backoff app none now meta
      store outcomes) :
    r.trace.length = outcomes.length ∧
    (∀ k, (hk : k < r.trace.length) →
      (r.trace.get ⟨k, hk⟩).backoffCount = meta.backoffCount + (k + 1)) ∧
    List.Chain (fun a b => a ≤ b) meta.throttleEndTimeMillis
      (r.trace.map (·.throttleEndTimeMillis)) := by
  subst hrun
  induction outcomes generalizing now meta store with
  | nil =>
    rw [attempt_nil backoff app hak hai]
    simp
  | cons o rest ih =>
    obtain ⟨dur, res⟩ := o
    match res with
    | .success cfg =>
      have h0 := hr (dur, .success cfg) (List.mem_cons_self _ _)
      simp [retriableOutcome] at h0
    | .failure e =>
      have hre : isRetriableError e = true := by
        have := hr _ (List.mem_cons_self _ _)
        simpa [retriableOutcome] using this
      rw [attempt_retriable_step backoff app hak hai none now meta store dur e
        rest (setAbortableTimeout_none _ _) hre]
      have hrest : ∀ p ∈ rest, retriableOutcome p = true := by
        intro p hp; exact hr p (List.mem_cons_of_mem _ hp)
      obtain ⟨ihlen, ihget, ihchain⟩ := ih hrest
        (now + (meta.throttleEndTimeMillis - now) + dur)
        ⟨meta.backoffCount + 1, now + (meta.throttleEndTimeMillis - now) + dur
          + backoff meta.backoffCount⟩
        (storeInsert store (app.options.appId.getD "")
          ⟨meta.backoffCount + 1, now + (meta.throttleEndTimeMillis - now) + dur
            + backoff meta.backoffCount⟩)
      refine ⟨by simpa using ihlen, ?_, ?_⟩
      · intro k hk
        match k with
        | 0 => simp
        | k + 1 =>
          simp only [List.length_cons] at hk
          have := ihget k (by simpa using Nat.lt_of_succ_lt_succ hk)
          simp only [List.get_cons_succ]
          dsimp only at this ⊢
          omega
      · refine List.Chain.cons ?_ ?_
        · dsimp only
          omega
        · exact ihchain

/-- Witness for C1 at the sample app, three retriable failures, starting
metadata `⟨0, 100⟩`. -/
theorem retry_backoff_increments_and_throttle_monotone_witness :
    (strTruthy sampleApp.options.apiKey = true) ∧
    (strTruthy sampleApp.options.appId = true) ∧
    (∀ p ∈ sampleRetriableOutcomes, retriableOutcome p = true) ∧
    ((attemptFetchDynamicConfigWithRetry (calculateBackoffMillis 37) sampleApp
        none 100 ⟨0, 100⟩ [] sampleRetriableOutcomes).trace.length
      = sampleRetriableOutcomes.length ∧
    (∀ k, (hk : k < (attemptFetchDynamicConfigWithRetry
        (calculateBackoffMillis 37) sampleApp none 100 ⟨0, 100⟩ []
        sampleRetriableOutcomes).trace.length) →
      ((attemptFetchDynamicConfigWithRetry (calculateBackoffMillis 37)
        sampleApp none 100 ⟨0, 100⟩ []
        sampleRetriableOutcomes).trace.get ⟨k, hk⟩).backoffCount
        = (⟨0, 100⟩ : ThrottleMetadata).backoffCount + (k + 1)) ∧
    List.Chain (fun a b => a ≤ b)
      (⟨0, 100⟩ : ThrottleMetadata).throttleEndTimeMillis
      ((attemptFetchDynamicConfigWithRetry (calculateBackoffMillis 37)
        sampleApp none 100 ⟨0, 100⟩ []
        sampleRetriableOutcomes).trace.map (·.throttleEndTimeMillis))) :=
  ⟨by decide, by decide, by decide,
    retry_backoff_increments_and_throttle_monotone
      (calculateBackoffMillis 37) sampleApp (by decide) (by decide)
      sampleRetriableOutcomes (by decide) 100 ⟨0, 100⟩ [] _ rfl⟩

/-- C2: an error is retriable iff it is a FirebaseError whose httpStatus
is 429, 500, 503 or 504; a retriable failure updates the throttle
metadata and recurses, any other failure is terminal. -/
theorem retriable_classification_and_loop_behavior
    (backoff : Nat → Nat) (app : FirebaseApp)
    (hak : strTruthy app.options.apiKey = true)
    (hai : strTruthy app.options.appId = true)
    (now : Nat) (meta : ThrottleMetadata) (store : ThrottleStore)
    (dur : Nat) (rest : List (Nat × FetchResult))
    (e eR eN : FetchError)
    (hR : isRetriableError eR = true)
    (hN : isRetriableError eN = false) :
    (isRetriableError e = true ↔
      (e.isFirebaseError = true ∧
        (e.httpStatus = some 429 ∨ e.httpStatus = some 500 ∨
         e.httpStatus = some 503 ∨ e.httpStatus = some 504))) ∧
    (attemptFetchDynamicConfigWithRetry backoff app none now meta store
        ((dur, .failure eR) :: rest) =
      (let meta2 : ThrottleMetadata :=
        ⟨meta.backoffCount + 1, now + (meta.throttleEndTimeMillis - now) + dur
          + backoff meta.backoffCount⟩
      let r := attemptFetchDynamicConfigWithRetry backoff app none
        (now + (meta.throttleEndTimeMillis - now) + dur) meta2
        (storeInsert store (app.options.appId.getD "") meta2) rest
      ⟨r.result, r.store, meta2 :: r.trace, r.attempts + 1⟩)) ∧
    (attemptFetchDynamicConfigWithRetry backoff app none now meta store
        ((dur, .failure eN) :: rest) =
      ⟨.err eN, storeErase store (app.options.appId.getD ""), [], 1⟩) := by
  refine ⟨?_,
    attempt_retriable_step backoff app hak hai none now meta store dur eR rest
      (setAbortableTimeout_none _ _) hR,
    attempt_nonretriable_step backoff app hak hai none now meta store dur eN
      rest (setAbortableTimeout_none _ _) hN⟩
  rcases e with ⟨fb, st⟩
  cases fb
  · simp [isRetriableError]
  · simp only [isRetriableError]
    simp
    tauto

/-- Witness for C2 at the sample app, a 503 retriable and a 400
non-retriable failure. -/
theorem retriable_classification_and_loop_behavior_witness :
    (strTruthy sampleApp.options.apiKey = true) ∧
    (strTruthy sampleApp.options.appId = true) ∧
    isRetriableError err503 = true ∧
    isRetriableError err400 = false ∧
    ((isRetriableError err503 = true ↔
      (err503.isFirebaseError = true ∧
        (err503.httpStatus = some 429 ∨ err503.httpStatus = some 500 ∨
         err503.httpStatus = some 503 ∨ err503.httpStatus = some 504))) ∧
    (attemptFetchDynamicConfigWithRetry (calculateBackoffMillis 37) sampleApp
        none 100 ⟨0, 100⟩ [] ((5, .failure err503) :: []) =
      (let meta2 : ThrottleMetadata :=
        ⟨(⟨0, 100⟩ : ThrottleMetadata).backoffCount + 1,
          100 + ((⟨0, 100⟩ : ThrottleMetadata).throttleEndTimeMillis - 100) + 5
          + calculateBackoffMillis 37
              (⟨0, 100⟩ : ThrottleMetadata).backoffCount⟩
      let r := attemptFetchDynamicConfigWithRetry (calculateBackoffMillis 37)
        sampleApp none
        (100 + ((⟨0, 100⟩ : ThrottleMetadata).throttleEndTimeMillis - 100) + 5)
        meta2 (storeInsert [] (sampleApp.options.appId.getD "") meta2) []
      ⟨r.result, r.store, meta2 :: r.trace, r.attempts + 1⟩)) ∧
    (attemptFetchDynamicConfigWithRetry (calculateBackoffMillis 37) sampleApp
        none 100 ⟨0, 100⟩ [] ((5, .failure err400) :: []) =
      ⟨.err err400, storeErase [] (sampleApp.options.appId.getD ""), [],
        1⟩)) :=
  ⟨by decide, by decide, by decide, by decide,
    retriable_classification_and_loop_behavior (calculateBackoffMillis 37)
      sampleApp (by decide) (by decide) 100 ⟨0, 100⟩ [] 5 [] err503 err503
      err400 (by decide) (by decide)⟩

/-- C3: a successful fetch attempt returns the config, deletes the stored
throttle metadata for the identity, and a subsequent top-level fetch for
that identity starts from the fresh default
`⟨backoffCount = 0, throttleEndTimeMillis = now⟩`. -/
theorem success_clears_throttle_state
    (backoff : Nat → Nat) (app : FirebaseApp)
    (hak : strTruthy app.options.apiKey = true)
    (hai : strTruthy app.options.appId = true)
    (now : Nat) (meta : ThrottleMetadata) (store : ThrottleStore)
    (dur : Nat) (cfg : DynamicConfig) (rest : List (Nat × FetchResult))
    (r : RetryRun)
    (hrun : r = attemptFetchDynamicConfigWithRetry backoff app none now meta
      store ((dur, .success cfg) :: rest)) :
    r.result = .ok cfg ∧
    storeLookup r.store (app.options.appId.getD "") = none ∧
    (∀ (now2 : Nat) (outcomes2 : List (Nat × FetchResult)),
      fetchDynamicConfigWithRetry backoff app now2 r.store outcomes2 =
        attemptFetchDynamicConfigWithRetry backoff app
          (some (now2 + FETCH_TIMEOUT_MILLIS)) now2 ⟨0, now2⟩ r.store
          outcomes2) := by
  subst hrun
  rw [attempt_success_step backoff app hak hai none now meta store dur cfg
    rest (setAbortableTimeout_none _ _)]
  refine ⟨rfl, storeLookup_storeErase _ _, ?_⟩
  intro now2 outcomes2
  unfold fetchDynamicConfigWithRetry
  simp [hak, hai, storeLookup_storeErase]

/-- Witness for C3 at the sample app, starting from a non-empty store
holding backed-off metadata for this identity. -/
theorem success_clears_throttle_state_witness :
    (strTruthy sampleApp.options.apiKey = true) ∧
    (strTruthy sampleApp.options.appId = true) ∧
    ((attemptFetchDynamicConfigWithRetry (calculateBackoffMillis 37) sampleApp
        none 2000 ⟨2, 2500⟩ [("abcdefgh12345:23405", ⟨2, 2500⟩)]
        [(7, .success ⟨"abcd-efgh-ijkl", none⟩)]).result
      = .ok ⟨"abcd-efgh-ijkl", none⟩ ∧
    storeLookup (attemptFetchDynamicConfigWithRetry (calculateBackoffMillis 37)
        sampleApp none 2000 ⟨2, 2500⟩ [("abcdefgh12345:23405", ⟨2, 2500⟩)]
        [(7, .success ⟨"abcd-efgh-ijkl", none⟩)]).store
        (sampleApp.options.appId.getD "") = none ∧
    (∀ (now2 : Nat) (outcomes2 : List (Nat × FetchResult)),
      fetchDynamicConfigWithRetry (calculateBackoffMillis 37) sampleApp now2
          (attemptFetchDynamicConfigWithRetry (calculateBackoffMillis 37)
            sampleApp none 2000 ⟨2, 2500⟩
            [("abcdefgh12345:23405", ⟨2, 2500⟩)]
            [(7, .success ⟨"abcd-efgh-ijkl", none⟩)]).store outcomes2 =
        attemptFetchDynamicConfigWithRetry (calculateBackoffMillis 37)
          sampleApp (some (now2 + FETCH_TIMEOUT_MILLIS)) now2 ⟨0, now2⟩
          (attemptFetchDynamicConfigWithRetry (calculateBackoffMillis 37)
            sampleApp none 2000 ⟨2, 2500⟩
            [("abcdefgh12345:23405", ⟨2, 2500⟩)]
            [(7, .success ⟨"abcd-efgh-ijkl", none⟩)]).store outcomes2)) :=
  ⟨by decide, by decide,
    success_clears_throttle_state (calculateBackoffMillis 37) sampleApp
      (by decide) (by decide) 2000 ⟨2, 2500⟩
      [("abcdefgh12345:23405", ⟨2, 2500⟩)] 7 ⟨"abcd-efgh-ijkl", none⟩ [] _
      rfl⟩

/-- C4: a non-retriable failure deletes the stored throttle metadata and
re-throws the same error immediately: no recursion, no further delay is
armed (the run records no persisted metadata and exactly the one
attempt). -/
theorem nonretriable_clears_and_rethrows
    (backoff : Nat → Nat) (app : FirebaseApp)
    (hak : strTruthy app.options.apiKey = true)
    (hai : strTruthy app.options.appId = true)
    (now : Nat) (meta : ThrottleMetadata) (store : ThrottleStore)
    (dur : Nat) (e : FetchError) (rest : List (Nat × FetchResult))
    (hne : isRetriableError e = false) (r : RetryRun)
    (hrun : r = attemptFetchDynamicConfigWithRetry backoff app none now meta
      store ((dur, .failure e) :: rest)) :
    r.result = .err e ∧
    r.store = storeErase store (app.options.appId.getD "") ∧
    storeLookup r.store (app.options.appId.getD "") = none ∧
    r.trace = [] ∧ r.attempts = 1 := by
  subst hrun
  rw [attempt_nonretriable_step backoff app hak hai none now meta store dur e
    rest (setAbortableTimeout_none _ _) hne]
  exact ⟨rfl, rfl, storeLookup_storeErase _ _, rfl, rfl⟩

/-- Witness for C4 at the sample app with an HTTP 400 failure. -/
theorem nonretriable_clears_and_rethrows_witness :
    (strTruthy sampleApp.options.apiKey = true) ∧
    (strTruthy sampleApp.options.appId = true) ∧
    isRetriableError err400 = false ∧
    ((attemptFetchDynamicConfigWithRetry (calculateBackoffMillis 37) sampleApp
        none 2000 ⟨2, 2500⟩ [("abcdefgh12345:23405", ⟨2, 2500⟩)]
        [(7, .failure err400)]).result = .err err400 ∧
    (attemptFetchDynamicConfigWithRetry (calculateBackoffMillis 37) sampleApp
        none 2000 ⟨2, 2500⟩ [("abcdefgh12345:23405", ⟨2, 2500⟩)]
        [(7, .failure err400)]).store
      = storeErase [("abcdefgh12345:23405", ⟨2, 2500⟩)]
          (sampleApp.options.appId.getD "") ∧
    storeLookup (attemptFetchDynamicConfigWithRetry (calculateBackoffMillis 37)
        sampleApp none 2000 ⟨2, 2500⟩ [("abcdefgh12345:23405", ⟨2, 2500⟩)]
        [(7, .failure err400)]).store (sampleApp.options.appId.getD "")
      = none ∧
    (attemptFetchDynamicConfigWithRetry (calculateBackoffMillis 37) sampleApp
        none 2000 ⟨2, 2500⟩ [("abcdefgh12345:23405", ⟨2, 2500⟩)]
        [(7, .failure err400)]).trace = [] ∧
    (attemptFetchDynamicConfigWithRetry (calculateBackoffMillis 37) sampleApp
        none 2000 ⟨2, 2500⟩ [("abcdefgh12345:23405", ⟨2, 2500⟩)]
        [(7, .failure err400)]).attempts = 1) :=
  ⟨by decide, by decide, by decide,
    nonretriable_clears_and_rethrows (calculateBackoffMillis 37) sampleApp
      (by decide) (by decide) 2000 ⟨2, 2500⟩
      [("abcdefgh12345:23405", ⟨2, 2500⟩)] 7 err400 [] (by decide) _ rfl⟩

/-- C5: `setAbortableTimeout` resolves after
`max(throttleEndTimeMillis - now, 0)` ms when the signal does not fire
during the wait; an abort during the wait rejects with the throttle error
carrying the originally requested end time; an abort at or after the
resolution time has no effect. -/
theorem setAbortableTimeout_contract
    (now endT a b : Nat)
    (ha1 : now ≤ a) (ha2 : a < now + max (endT - now) 0)
    (hb : now + max (endT - now) 0 ≤ b) :
    setAbortableTimeout now endT none = .resolved (now + max (endT - now) 0) ∧
    setAbortableTimeout now endT (some a) = .rejectedThrottle endT ∧
    setAbortableTimeout now endT (some b) =
      .resolved (now + max (endT - now) 0) := by
  rw [Nat.max_zero] at ha2 hb ⊢
  refine ⟨rfl, ?_, ?_⟩
  · have h : now ≤ a ∧ a < now + (endT - now) := ⟨ha1, ha2⟩
    simp [setAbortableTimeout, h]
  · have h : ¬(now ≤ b ∧ b < now + (endT - now)) := by omega
    simp [setAbortableTimeout, h]

/-- Witness for C5: wait from 100 until 150, abort at 120 (pending) and at
200 (already resolved). -/
theorem setAbortableTimeout_contract_witness :
    100 ≤ 120 ∧ 120 < 100 + max (150 - 100) 0 ∧
    100 + max (150 - 100) 0 ≤ 200 ∧
    (setAbortableTimeout 100 150 none =
        .resolved (100 + max (150 - 100) 0) ∧
      setAbortableTimeout 100 150 (some 120) = .rejectedThrottle 150 ∧
      setAbortableTimeout 100 150 (some 200) =
        .resolved (100 + max (150 - 100) 0)) :=
  ⟨by decide, by decide, by decide,
    setAbortableTimeout_contract 100 150 120 200 (by decide) (by decide)
      (by decide)⟩

/-- C6: the top-level call arms exactly one watchdog at the fixed
60-second ceiling; a watchdog abort during a pending throttle delay
terminates the run with the throttle error carrying the scheduled end
time, dispatches no further fetch attempt, and leaves the stored
throttle metadata untouched. -/
theorem watchdog_ceiling_and_abort_behavior
    (backoff : Nat → Nat) (app : FirebaseApp)
    (hak : strTruthy app.options.apiKey = true)
    (hai : strTruthy app.options.appId = true)
    (now : Nat) (store : ThrottleStore)
    (outcomes : List (Nat × FetchResult))
    (meta : ThrottleMetadata) (a : Nat)
    (h1 : now ≤ a) (h2 : a < now + (meta.throttleEndTimeMillis - now)) :
    FETCH_TIMEOUT_MILLIS = 60 * 1000 ∧
    fetchDynamicConfigWithRetry backoff app now store outcomes =
      attemptFetchDynamicConfigWithRetry backoff app
        (some (now + FETCH_TIMEOUT_MILLIS)) now
        ((storeLookup store (app.options.appId.getD "")).getD ⟨0, now⟩)
        store outcomes ∧
    attemptFetchDynamicConfigWithRetry backoff app (some a) now meta store
        outcomes =
      ⟨.throttled meta.throttleEndTimeMillis, store, [], 0⟩ := by
  have hcond : now ≤ a ∧ a < now + (meta.throttleEndTimeMillis - now) :=
    ⟨h1, h2⟩
  refine ⟨rfl, ?_, ?_⟩
  · unfold fetchDynamicConfigWithRetry
    simp [hak, hai]
  · cases outcomes with
    | nil =>
      unfold attemptFetchDynamicConfigWithRetry
      simp [hak, hai, setAbortableTimeout, hcond]
    | cons o rest =>
      unfold attemptFetchDynamicConfigWithRetry
      simp [hak, hai, setAbortableTimeout, hcond]

/-- Witness for C6 at the sample app: throttle window ends at 150, the
watchdog fires at 120 while the delay is pending. -/
theorem watchdog_ceiling_and_abort_behavior_witness :
    (strTruthy sampleApp.options.apiKey = true) ∧
    (strTruthy sampleApp.options.appId = true) ∧
    100 ≤ 120 ∧
    120 < 100 + ((⟨1, 150⟩ : ThrottleMetadata).throttleEndTimeMillis - 100) ∧
    (FETCH_TIMEOUT_MILLIS = 60 * 1000 ∧
    fetchDynamicConfigWithRetry (calculateBackoffMillis 37) sampleApp 100
        [("abcdefgh12345:23405", ⟨1, 150⟩)] sampleRetriableOutcomes =
      attemptFetchDynamicConfigWithRetry (calculateBackoffMillis 37) sampleApp
        (some (100 + FETCH_TIMEOUT_MILLIS)) 100
        ((storeLookup [("abcdefgh12345:23405", ⟨1, 150⟩)]
          (sampleApp.options.appId.getD "")).getD ⟨0, 100⟩)
        [("abcdefgh12345:23405", ⟨1, 150⟩)] sampleRetriableOutcomes ∧
    attemptFetchDynamicConfigWithRetry (calculateBackoffMillis 37) sampleApp
        (some 120) 100 ⟨1, 150⟩ [("abcdefgh12345:23405", ⟨1, 150⟩)]
        sampleRetriableOutcomes =
      ⟨.throttled (⟨1, 150⟩ : ThrottleMetadata).throttleEndTimeMillis,
        [("abcdefgh12345:23405", ⟨1, 150⟩)], [], 0⟩) :=
  ⟨by decide, by decide, by decide, by decide,
    watchdog_ceiling_and_abort_behavior (calculateBackoffMillis 37) sampleApp
      (by decide) (by decide) 100 [("abcdefgh12345:23405", ⟨1, 150⟩)]
      sampleRetriableOutcomes ⟨1, 150⟩ 120 (by decide) (by decide)⟩

/-- C7: a missing (or empty) API key or app id fails with the
configuration error and no request is issued; otherwise exactly one GET
request goes to the templated URL with the app id substituted, with the
Accept and API-key headers, and the parsed response body is returned. -/
theorem fetchDynamicConfig_request_contract
    (net : HttpRequest → DynamicConfig) (app badApp : FirebaseApp)
    (apiKey appId : String)
    (hk : app.options.apiKey = some apiKey) (hk2 : apiKey ≠ "")
    (hi : app.options.appId = some appId) (hi2 : appId ≠ "")
    (hbad : strTruthy badApp.options.apiKey = false ∨
      strTruthy badApp.options.appId = false) :
    fetchDynamicConfig badApp net = ([], .error .noApiKey) ∧
    getHeaders apiKey =
      [("Accept", "application/json"), ("x-goog-api-key", apiKey)] ∧
    fetchDynamicConfig app net =
      ([⟨"GET", DYNAMIC_CONFIG_URL.replace "\x7bapp-id\x7d" appId,
          getHeaders apiKey⟩],
        .ok (net ⟨"GET", DYNAMIC_CONFIG_URL.replace "\x7bapp-id\x7d" appId,
          getHeaders apiKey⟩)) := by
  refine ⟨?_, rfl, ?_⟩
  · unfold fetchDynamicConfig
    rcases hbad with h | h <;> simp [h]
  · have h1 : strTruthy app.options.apiKey = true := by
      simp [hk, strTruthy, hk2]
    have h2 : strTruthy app.options.appId = true := by
      simp [hi, strTruthy, hi2]
    unfold fetchDynamicConfig
    simp [h1, h2, hk, hi, strTruthy, hk2, hi2]

/-- Witness for C7: the sample app versus an app with no API key. -/
theorem fetchDynamicConfig_request_contract_witness :
    ((⟨⟨some "AAbbCCdd12345", some "abcdefgh12345:23405"⟩⟩ :
        FirebaseApp).options.apiKey = some "AAbbCCdd12345") ∧
    ("AAbbCCdd12345" ≠ "") ∧
    ((⟨⟨some "AAbbCCdd12345", some "abcdefgh12345:23405"⟩⟩ :
        FirebaseApp).options.appId = some "abcdefgh12345:23405") ∧
    ("abcdefgh12345:23405" ≠ "") ∧
    (strTruthy (⟨⟨none, some "abcdefgh12345:23405"⟩⟩ :
        FirebaseApp).options.apiKey = false ∨
      strTruthy (⟨⟨none, some "abcdefgh12345:23405"⟩⟩ :
        FirebaseApp).options.appId = false) ∧
    (fetchDynamicConfig ⟨⟨none, some "abcdefgh12345:23405"⟩⟩
        (fun _ => ⟨"abcd-efgh-ijkl", none⟩) = ([], .error .noApiKey) ∧
    getHeaders "AAbbCCdd12345" =
      [("Accept", "application/json"),
        ("x-goog-api-key", "AAbbCCdd12345")] ∧
    fetchDynamicConfig ⟨⟨some "AAbbCCdd12345", some "abcdefgh12345:23405"⟩⟩
        (fun _ => ⟨"abcd-efgh-ijkl", none⟩) =
      ([⟨"GET",
          DYNAMIC_CONFIG_URL.replace "\x7bapp-id\x7d" "abcdefgh12345:23405",
          getHeaders "AAbbCCdd12345"⟩],
        .ok ((fun _ => ⟨"abcd-efgh-ijkl", none⟩ : HttpRequest → DynamicConfig)
          ⟨"GET",
            DYNAMIC_CONFIG_URL.replace "\x7bapp-id\x7d" "abcdefgh12345:23405",
            getHeaders "AAbbCCdd12345"⟩))) :=
  ⟨rfl, by decide, rfl, by decide, .inl rfl,
    fetchDynamicConfig_request_contract
      (fun _ => ⟨"abcd-efgh-ijkl", none⟩)
      ⟨⟨some "AAbbCCdd12345", some "abcdefgh12345:23405"⟩⟩
      ⟨⟨none, some "abcdefgh12345:23405"⟩⟩
      "AAbbCCdd12345" "abcdefgh12345:23405" rfl (by decide) rfl (by decide)
      (.inl rfl)⟩

/-- C8: with the spec's sample API key, app id, installation id and a mock
endpoint answering `measurementId = "abcd-efgh-ijkl"`, the core dispatch
function receives the identity-setting call
`("config", "abcd-efgh-ijkl",
  [firebase_id = "fid-1234-zyxw", origin = "firebase", update = true])`. -/
theorem initializeGAId_end_to_end :
    initializeGAId ⟨⟨some "AAbbCCdd12345", some "abcdefgh12345:23405"⟩⟩ []
      (fun _ => ⟨"abcd-efgh-ijkl", none⟩) "fid-1234-zyxw" 0 =
    .ok ⟨[⟨"js", [.date 0]⟩,
          ⟨"config", [.str "abcd-efgh-ijkl",
            .obj [("firebase_id", .str "fid-1234-zyxw"),
                  ("origin", .str "firebase"),
                  ("update", .bool true)]]⟩],
         [("abcd-efgh-ijkl", none)], "abcd-efgh-ijkl"⟩ := rfl

/-- C9: with `options.global` set, `logEvent` dispatches
`('event', name, params or empty)` synchronously for every state of the
dynamic-config promise; without it, the event is dispatched only after
the promise resolves, with `send_to` set to the fetched measurement id,
and a rejected promise is logged, not thrown. -/
theorem logEvent_dispatch_behavior
    (name : String) (params : Option (List (String × GVal)))
    (cfg : DynamicConfig) (og o : Option AnalyticsCallOptions)
    (hog : (og.map (·.global)).getD false = true)
    (ho : (o.map (·.global)).getD false = false) :
    (∀ q : PromiseOutcome DynamicConfig,
      logEvent q name params og =
        .callNow ⟨GtagCommand.EVENT, [.str name, .obj (params.getD [])]⟩) ∧
    logEvent (.resolved cfg) name params o =
      .callAfterResolve ⟨GtagCommand.EVENT,
        [.str name, .obj ((params.getD []) ++
          [("send_to", .str cfg.measurementId)])]⟩ ∧
    logEvent .rejected name params o = .errorLogged := by
  refine ⟨fun q => ?_, ?_, ?_⟩ <;> simp [logEvent, hog, ho]

/-- Witness for C9 at a concrete event with `global` options present and
absent. -/
theorem logEvent_dispatch_behavior_witness :
    ((some (⟨true⟩ : AnalyticsCallOptions)).map (·.global)).getD false =
        true ∧
    ((none : Option AnalyticsCallOptions).map (·.global)).getD false =
        false ∧
    ((∀ q : PromiseOutcome DynamicConfig,
      logEvent q "screen_view" none (some ⟨true⟩) =
        .callNow ⟨GtagCommand.EVENT,
          [.str "screen_view", .obj ((none :
            Option (List (String × GVal))).getD [])]⟩) ∧
    logEvent (.resolved ⟨"abcd-efgh-ijkl", none⟩) "screen_view" none none =
      .callAfterResolve ⟨GtagCommand.EVENT,
        [.str "screen_view", .obj (((none :
            Option (List (String × GVal))).getD []) ++
          [("send_to", .str (⟨"abcd-efgh-ijkl", none⟩ :
            DynamicConfig).measurementId)])]⟩ ∧
    logEvent .rejected "screen_view" none none = .errorLogged) :=
  ⟨by decide, by decide,
    logEvent_dispatch_behavior "screen_view" none ⟨"abcd-efgh-ijkl", none⟩
      (some ⟨true⟩) none (by decide) (by decide)⟩

end GetConfig

namespace FirestoreLite

/-- C10: `doc` with the empty string throws the INVALID_ARGUMENT
FirestoreError; `doc` with no argument succeeds, building the document
path from the generated auto-id. -/
theorem doc_empty_string_and_autoId
    (c : CollectionReference) (autoId : String) :
    CollectionReference.doc c autoId (some "") =
      .error ⟨.INVALID_ARGUMENT, "Document path must be a non-empty string"⟩ ∧
    CollectionReference.doc c autoId none =
      .ok ⟨⟨ResourcePath.child c._path (ResourcePath.fromString autoId)⟩⟩ :=
  ⟨rfl, rfl⟩

end FirestoreLite
